import Mathlib

set_option autoImplicit false

/-!
Verification of the inventory REST backend (two deployment variants:
`src/inventory_backend.js`, called `Main` below, and the serverless file
`src/unnamed/part_000`, called `Alt` below).

The database tables `products`, `stock`, `employees` (DDL in
`inventory_backend.js`, `createTables`, lines 38-70) are modelled as lists of
rows; SQL statement semantics (NOT NULL, UNIQUE, REFERENCES ... ON DELETE
CASCADE, `ILIKE`, `LEFT JOIN`, serial ids) are embedded explicitly.  Each
route handler becomes a function from a database state and a request body to
an HTTP status, the new database state, and the returned row (if any).
Strings are modelled as lists of characters (`Str`).
-/

/-- Text values (JS strings / SQL varchar) as lists of characters. -/
abbrev Str := List Char

/-- Shorthand to write `Str` constants from string literals. -/
def str (s : String) : Str := s.data

/-- JS falsiness test used by the validation of `inventory_backend.js`
(`!x` on a string field of the parsed JSON body: a missing/null field or the
empty string is falsy). -/
def falsy : Option Str → Bool
  | none => true
  | some s => s.isEmpty

/-- SQL equality on two possibly-NULL values: `NULL = x` is never true. -/
def sqlEq : Option Str → Option Str → Bool
  | some a, some b => a == b
  | _, _ => false

/-! ## SQL `LIKE` / `ILIKE` pattern matching

Both search endpoints of the Alt variant interpolate the query parameter
into an `ILIKE` pattern (`%${search}%`, part_000 lines 95-97, 179-181,
259-261).  `likeMatch pat s` is the standard SQL `LIKE` semantics: `%`
matches any sequence, `_` any single character, and a backslash escapes the
following pattern character; `ILIKE` lowercases both sides first. -/

/-- All suffixes of a list, longest first (ending with `[]`). -/
def tails {α : Type} : List α → List (List α)
  | [] => [[]]
  | a :: t => (a :: t) :: tails t

def likeMatch : Str → Str → Bool
  | [], cs => cs.isEmpty
  | p :: ps, cs =>
    if p = '%' then
      (tails cs).any fun t => likeMatch ps t
    else if p = '_' then
      match cs with
      | [] => false
      | _ :: ct => likeMatch ps ct
    else if p = '\\' then
      match ps with
      | [] => false
      | q :: pt =>
        match cs with
        | [] => false
        | c :: ct => q == c && likeMatch pt ct
    else
      match cs with
      | [] => false
      | c :: ct => p == c && likeMatch ps ct

/-- ASCII lowercasing of a text value, as SQL `lower` / `ILIKE` do. -/
def lowerStr (s : Str) : Str := s.map Char.toLower

/-- The pattern the Alt variant builds from the search parameter:
`'%' + search + '%'`. -/
def likePattern (search : Str) : Str := '%' :: search ++ ['%']

/-- `value ILIKE pattern` (case-insensitive `LIKE`). -/
def ilike (value pattern : Str) : Bool :=
  likeMatch (lowerStr pattern) (lowerStr value)

/-- `ILIKE` applied to a nullable column: a NULL value never matches. -/
def optIlike (value : Option Str) (pattern : Str) : Bool :=
  match value with
  | none => false
  | some s => ilike s pattern

/-- True when the text contains none of the `LIKE` metacharacters
`%`, `_`, `\`. -/
def wildcardFree (s : Str) : Bool :=
  s.all fun c => !(c == '%' || c == '_' || c == '\\')

/-! ## The spec-side search predicate

The specification describes search as "a case-insensitive substring match".
The following definitions formalise those words (they are deliberately *not*
derived from the code; they are the yardstick the code's `ILIKE` filter is
compared against). -/

/-- `leadMatch s t`: `s` occurs at the start of `t`. -/
def leadMatch : Str → Str → Bool
  | [], _ => true
  | _ :: _, [] => false
  | a :: s, b :: t => a == b && leadMatch s t

/-- `subMatch s t`: `s` occurs contiguously somewhere inside `t`. -/
def subMatch (s : Str) : Str → Bool
  | [] => leadMatch s []
  | b :: t => leadMatch s (b :: t) || subMatch s t

/-- Modelled from the spec: "case-insensitive substring match" — `needle`
occurs inside `hay` up to ASCII case. -/
def ciSub (needle hay : Str) : Bool :=
  subMatch (lowerStr needle) (lowerStr hay)

/-- `ciSub` against a nullable column: a NULL field matches nothing. -/
def optCiSub (needle : Str) (hay : Option Str) : Bool :=
  match hay with
  | none => false
  | some h => ciSub needle h

/-! ## Data model

Row shapes follow the DDL in `createTables` (inventory_backend.js lines
38-70): `products(id SERIAL, id_produk UNIQUE NOT NULL, nama_produk NOT
NULL, kategori_produk)`, `stock(id SERIAL, id_produk UNIQUE REFERENCES
products(id_produk) ON DELETE CASCADE, nama_produk NOT NULL, jumlah_stok
INTEGER)`, `employees(id SERIAL, nama NOT NULL, posisi, email)`.  Nullable
columns are `Option`s. -/

structure ProductRow where
  id : Nat
  id_produk : Str
  nama_produk : Str
  kategori_produk : Option Str
deriving DecidableEq, Repr

structure StockRow where
  id : Nat
  id_produk : Option Str
  nama_produk : Str
  jumlah_stok : Option Int
deriving DecidableEq, Repr

structure EmployeeRow where
  id : Nat
  nama : Str
  posisi : Option Str
  email : Option Str
deriving DecidableEq, Repr

/-- The database state: the three tables plus the next value of each
`SERIAL` id sequence. -/
structure DB where
  products : List ProductRow
  stock : List StockRow
  employees : List EmployeeRow
  productSeq : Nat
  stockSeq : Nat
  employeeSeq : Nat
deriving DecidableEq, Repr

/-- The empty, freshly-bootstrapped database. -/
def dbEmpty : DB := ⟨[], [], [], 1, 1, 1⟩

/-- Parsed JSON body of a product create/update request; any field can be
absent. -/
structure ProductBody where
  id_produk : Option Str
  nama_produk : Option Str
  kategori_produk : Option Str
deriving DecidableEq, Repr

/-- Parsed JSON body of a stock create request. `jumlah_stok` is `some`
exactly when the field is a number. -/
structure StockBody where
  id_produk : Option Str
  nama_produk : Option Str
  jumlah_stok : Option Int
deriving DecidableEq, Repr

/-- Parsed JSON body of an employee create/update request. -/
structure EmployeeBody where
  nama : Option Str
  posisi : Option Str
  email : Option Str
deriving DecidableEq, Repr

/-- Errors a single SQL statement can raise (Postgres classes the handlers
distinguish: 23502 not-null, 23505 unique, 23503 foreign-key). -/
inductive SqlError where
  | nullViolation
  | uniqueViolation
  | fkViolation
deriving DecidableEq, Repr

/-! ## Embedded SQL statements

The INSERT statements are shared by both variants (identical SQL text), so
they are modelled once.  Constraint checks follow Postgres evaluation
order: NOT NULL at tuple formation, then the UNIQUE index, then the foreign
key. -/

/-- `INSERT INTO products (id_produk, nama_produk, kategori_produk) VALUES
($1,$2,$3) RETURNING *` (inventory_backend.js line 88, part_000 line 111). -/
def insertProductRow (db : DB) (b : ProductBody) : Except SqlError (DB × ProductRow) :=
  match b.id_produk, b.nama_produk with
  | some k, some n =>
    if (db.products.filter fun p => p.id_produk == k).isEmpty then
      let row : ProductRow := ⟨db.productSeq, k, n, b.kategori_produk⟩
      .ok ({ db with products := db.products ++ [row], productSeq := db.productSeq + 1 }, row)
    else .error .uniqueViolation
  | _, _ => .error .nullViolation

/-- `INSERT INTO stock (id_produk, nama_produk, jumlah_stok) VALUES
($1,$2,$3) RETURNING *` (inventory_backend.js line 169, part_000 line 196).
The UNIQUE index and the foreign key ignore a NULL `id_produk`. -/
def insertStockRow (db : DB) (key nama : Option Str) (qty : Option Int) :
    Except SqlError (DB × StockRow) :=
  match nama with
  | none => .error .nullViolation
  | some nm =>
    if key.isSome && !(db.stock.filter fun s => s.id_produk == key).isEmpty then
      .error .uniqueViolation
    else if key.isSome && (db.products.filter fun p => some p.id_produk == key).isEmpty then
      .error .fkViolation
    else
      let row : StockRow := ⟨db.stockSeq, key, nm, qty⟩
      .ok ({ db with stock := db.stock ++ [row], stockSeq := db.stockSeq + 1 }, row)

/-- `INSERT INTO employees (nama, posisi, email) VALUES ($1,$2,$3)
RETURNING *` (inventory_backend.js line 220, part_000 line 275). -/
def insertEmployeeRow (db : DB) (b : EmployeeBody) : Except SqlError (DB × EmployeeRow) :=
  match b.nama with
  | none => .error .nullViolation
  | some nm =>
    let row : EmployeeRow := ⟨db.employeeSeq, nm, b.posisi, b.email⟩
    .ok ({ db with employees := db.employees ++ [row], employeeSeq := db.employeeSeq + 1 }, row)

/-! ## Main variant: handlers of `inventory_backend.js`

Each handler returns `(status, database after the request, returned row)`.
A DELETE success sends no body (`204`), so its row component is `none`. -/

/-- POST `/api/products` (inventory_backend.js lines 84-94): validates the
two required fields (JS falsiness), then runs the INSERT; any SQL failure
is caught and answered with 500. -/
def postProductMain (db : DB) (b : ProductBody) : Nat × DB × Option ProductRow :=
  if falsy b.id_produk || falsy b.nama_produk then (400, db, none)
  else
    match insertProductRow db b with
    | .ok (db1, row) => (201, db1, some row)
    | .error _ => (500, db, none)

/-- PUT `/api/products/:id` (inventory_backend.js lines 96-111): UPDATE by
internal id; on 0 rows affected answer 404; otherwise run the second
statement that copies the new name into the matching `stock` row
(`UPDATE stock SET nama_produk = $1 WHERE id_produk = (SELECT id_produk
FROM products WHERE id = $2)`). -/
def putProductMain (db : DB) (i : Nat) (nama kategori : Option Str) :
    Nat × DB × Option ProductRow :=
  match db.products.filter fun p => p.id == i with
  | [] => (404, db, none)
  | _ :: _ =>
    match nama with
    | none => (500, db, none)
    | some n =>
      let upd := fun (p : ProductRow) =>
        if p.id == i then { p with nama_produk := n, kategori_produk := kategori } else p
      let db1 := { db with products := db.products.map upd }
      let key := (db1.products.find? fun p => p.id == i).map fun p => p.id_produk
      let upd2 := fun (s : StockRow) =>
        if sqlEq s.id_produk key then { s with nama_produk := n } else s
      let db2 := { db1 with stock := db1.stock.map upd2 }
      (200, db2, ((db.products.filter fun p => p.id == i).map upd).head?)

/-- DELETE `/api/products/:id` (inventory_backend.js lines 113-125): DELETE
by internal id; `ON DELETE CASCADE` on `stock.id_produk` also removes the
stock rows whose key belongs to a deleted product. -/
def deleteProductMain (db : DB) (i : Nat) : Nat × DB × Option ProductRow :=
  match db.products.filter fun p => p.id == i with
  | [] => (404, db, none)
  | _ :: _ =>
    (204, { db with
      products := db.products.filter fun p => !(p.id == i),
      stock := db.stock.filter fun s =>
        !(db.products.any fun p => p.id == i && some p.id_produk == s.id_produk) }, none)

/-- A row of the Main variant's stock listing: `s.id, s.id_produk,
p.nama_produk, s.jumlah_stok` — the name comes from the `products` side of
the LEFT JOIN, so it is NULL when no product matches. -/
structure StockView where
  id : Nat
  id_produk : Option Str
  nama_produk : Option Str
  jumlah_stok : Option Int
deriving DecidableEq, Repr

/-- Insert a stock row into a list sorted by descending `id`. -/
def insertDesc (a : StockRow) : List StockRow → List StockRow
  | [] => [a]
  | b :: l => if b.id ≤ a.id then a :: b :: l else b :: insertDesc a l

/-- `ORDER BY s.id DESC` of the Main variant's stock listing. -/
def sortByIdDesc : List StockRow → List StockRow
  | [] => []
  | a :: l => insertDesc a (sortByIdDesc l)

/-- GET `/api/stock` (inventory_backend.js lines 128-147): LEFT JOIN with
`products` on the business key, name taken from the product side, ordered
by descending id. -/
def getStockMain (db : DB) : List StockView :=
  (sortByIdDesc db.stock).map fun s =>
    ⟨s.id, s.id_produk,
     (db.products.find? fun p => sqlEq (some p.id_produk) s.id_produk).map fun p => p.nama_produk,
     s.jumlah_stok⟩

/-- POST `/api/stock`, upsert policy (inventory_backend.js lines 149-176):
validate, look the product up (404 when absent), then either add the given
quantity to the existing stock row or insert a new row carrying the
product's name. -/
def postStockMain (db : DB) (b : StockBody) : Nat × DB × Option StockRow :=
  if falsy b.id_produk || b.jumlah_stok.isNone then (400, db, none)
  else
    match b.id_produk, b.jumlah_stok with
    | some key, some qty =>
      match db.products.find? fun p => p.id_produk == key with
      | none => (404, db, none)
      | some p =>
        match db.stock.find? fun s => s.id_produk == some key with
        | some s =>
          let newQty : Int := s.jumlah_stok.getD 0 + qty
          let upd := fun (t : StockRow) =>
            if t.id_produk == some key then { t with jumlah_stok := some newQty } else t
          (201, { db with stock := db.stock.map upd },
           ((db.stock.filter fun t => t.id_produk == some key).map upd).head?)
        | none =>
          match insertStockRow db (some key) (some p.nama_produk) (some qty) with
          | .ok (db1, row) => (201, db1, some row)
          | .error _ => (500, db, none)
    | _, _ => (400, db, none)

/-- PUT `/api/stock/:id` (inventory_backend.js lines 178-189): replace the
quantity of the row with the given internal id. -/
def putStockMain (db : DB) (i : Nat) (qty : Option Int) : Nat × DB × Option StockRow :=
  match db.stock.filter fun s => s.id == i with
  | [] => (404, db, none)
  | _ :: _ =>
    let upd := fun (s : StockRow) => if s.id == i then { s with jumlah_stok := qty } else s
    (200, { db with stock := db.stock.map upd },
     ((db.stock.filter fun s => s.id == i).map upd).head?)

/-- DELETE `/api/stock/:id` (inventory_backend.js lines 191-201). -/
def deleteStockMain (db : DB) (i : Nat) : Nat × DB × Option StockRow :=
  match db.stock.filter fun s => s.id == i with
  | [] => (404, db, none)
  | _ :: _ => (204, { db with stock := db.stock.filter fun s => !(s.id == i) }, none)

/-- POST `/api/employees` (inventory_backend.js lines 216-226): `nama` and
`posisi` are required (JS falsiness); SQL failures become 500. -/
def postEmployeeMain (db : DB) (b : EmployeeBody) : Nat × DB × Option EmployeeRow :=
  if falsy b.nama || falsy b.posisi then (400, db, none)
  else
    match insertEmployeeRow db b with
    | .ok (db1, row) => (201, db1, some row)
    | .error _ => (500, db, none)

/-- PUT `/api/employees/:id` (inventory_backend.js lines 228-239). -/
def putEmployeeMain (db : DB) (i : Nat) (nm ps em : Option Str) :
    Nat × DB × Option EmployeeRow :=
  match db.employees.filter fun e => e.id == i with
  | [] => (404, db, none)
  | _ :: _ =>
    match nm with
    | none => (500, db, none)
    | some n =>
      let upd := fun (e : EmployeeRow) =>
        if e.id == i then { e with nama := n, posisi := ps, email := em } else e
      (200, { db with employees := db.employees.map upd },
       ((db.employees.filter fun e => e.id == i).map upd).head?)

/-- DELETE `/api/employees/:id` (inventory_backend.js lines 241-251). -/
def deleteEmployeeMain (db : DB) (i : Nat) : Nat × DB × Option EmployeeRow :=
  match db.employees.filter fun e => e.id == i with
  | [] => (404, db, none)
  | _ :: _ => (204, { db with employees := db.employees.filter fun e => !(e.id == i) }, none)

/-! ## Alt variant: handlers of `src/unnamed/part_000`

This deployment routes products and stock by business key, performs no
pre-database validation, maps SQL error codes to statuses (23505 → 409,
23503 → 400, anything else → 500 via `handleQueryError`), and offers
`?search=` filtering through `ILIKE`. -/

/-- The WHERE clause of GET `/api/products?search=` (part_000 line 97):
`nama_produk ILIKE $1 OR kategori_produk ILIKE $1 OR id_produk ILIKE $1`
with `$1 = '%' + search + '%'`. -/
def matchesProductSearch (q : Str) (p : ProductRow) : Bool :=
  ilike p.nama_produk (likePattern q) ||
    optIlike p.kategori_produk (likePattern q) ||
    ilike p.id_produk (likePattern q)

/-- GET `/api/products` (part_000 lines 90-106); `if (search)` means an
absent or empty parameter disables the filter. -/
def getProductsAlt (db : DB) (search : Option Str) : List ProductRow :=
  match search with
  | none => db.products
  | some q => if q.isEmpty then db.products else db.products.filter (matchesProductSearch q)

/-- POST `/api/products` (part_000 lines 109-124): the INSERT runs with no
prior validation; a unique violation is answered with 409, any other SQL
error with 500. -/
def postProductAlt (db : DB) (b : ProductBody) : Nat × DB × Option ProductRow :=
  match insertProductRow db b with
  | .ok (db1, row) => (201, db1, some row)
  | .error .uniqueViolation => (409, db, none)
  | .error _ => (500, db, none)

/-- PUT `/api/products/:id_produk` (part_000 lines 127-142): UPDATE by
business key; 404 on zero rows affected.  Note: no second statement — the
denormalized `stock.nama_produk` is left untouched. -/
def putProductAlt (db : DB) (k : Str) (nama kategori : Option Str) :
    Nat × DB × Option ProductRow :=
  match db.products.filter fun p => p.id_produk == k with
  | [] => (404, db, none)
  | _ :: _ =>
    match nama with
    | none => (500, db, none)
    | some n =>
      let upd := fun (p : ProductRow) =>
        if p.id_produk == k then { p with nama_produk := n, kategori_produk := kategori } else p
      (200, { db with products := db.products.map upd },
       ((db.products.filter fun p => p.id_produk == k).map upd).head?)

/-- DELETE `/api/products/:id_produk` (part_000 lines 145-158); the
schema's `ON DELETE CASCADE` removes the dependent stock rows. -/
def deleteProductAlt (db : DB) (k : Str) : Nat × DB × Option ProductRow :=
  match db.products.filter fun p => p.id_produk == k with
  | [] => (404, db, none)
  | p :: _ =>
    (200, { db with
      products := db.products.filter fun r => !(r.id_produk == k),
      stock := db.stock.filter fun s =>
        !(db.products.any fun r => r.id_produk == k && some r.id_produk == s.id_produk) },
     some p)

/-- A row of the Alt variant's stock listing: `s.id, s.id_produk,
s.nama_produk, s.jumlah_stok, p.kategori_produk` — the name is the
denormalized copy stored on the stock row itself. -/
structure StockViewAlt where
  id : Nat
  id_produk : Option Str
  nama_produk : Str
  jumlah_stok : Option Int
  kategori_produk : Option Str
deriving DecidableEq, Repr

/-- The WHERE clause of GET `/api/stock?search=` (part_000 line 181):
`s.nama_produk ILIKE $1 OR s.id_produk ILIKE $1`. -/
def matchesStockSearch (q : Str) (s : StockRow) : Bool :=
  ilike s.nama_produk (likePattern q) || optIlike s.id_produk (likePattern q)

/-- GET `/api/stock` (part_000 lines 165-190): LEFT JOIN contributes only
`kategori_produk`; the displayed name is the stock row's own copy.  No
ORDER BY. -/
def getStockAlt (db : DB) (search : Option Str) : List StockViewAlt :=
  let rows := match search with
    | none => db.stock
    | some q => if q.isEmpty then db.stock else db.stock.filter (matchesStockSearch q)
  rows.map fun s =>
    ⟨s.id, s.id_produk, s.nama_produk, s.jumlah_stok,
     ((db.products.find? fun p => sqlEq (some p.id_produk) s.id_produk).bind
       fun p => p.kategori_produk)⟩

/-- POST `/api/stock`, strict policy (part_000 lines 193-213): plain
INSERT; foreign-key violation → 400, unique violation → 409, other SQL
errors → 500. -/
def postStockAlt (db : DB) (b : StockBody) : Nat × DB × Option StockRow :=
  match insertStockRow db b.id_produk b.nama_produk b.jumlah_stok with
  | .ok (db1, row) => (201, db1, some row)
  | .error .fkViolation => (400, db, none)
  | .error .uniqueViolation => (409, db, none)
  | .error _ => (500, db, none)

/-- PUT `/api/stock/:id_produk` (part_000 lines 216-231): replace the
quantity of the row with the given business key. -/
def putStockAlt (db : DB) (k : Str) (qty : Option Int) : Nat × DB × Option StockRow :=
  match db.stock.filter fun s => s.id_produk == some k with
  | [] => (404, db, none)
  | _ :: _ =>
    let upd := fun (s : StockRow) =>
      if s.id_produk == some k then { s with jumlah_stok := qty } else s
    (200, { db with stock := db.stock.map upd },
     ((db.stock.filter fun s => s.id_produk == some k).map upd).head?)

/-- DELETE `/api/stock/:id_produk` (part_000 lines 234-247). -/
def deleteStockAlt (db : DB) (k : Str) : Nat × DB × Option StockRow :=
  match db.stock.filter fun s => s.id_produk == some k with
  | [] => (404, db, none)
  | s :: _ =>
    (200, { db with stock := db.stock.filter fun t => !(t.id_produk == some k) }, some s)

/-- The WHERE clause of GET `/api/employees?search=` (part_000 line 261):
`nama ILIKE $1 OR posisi ILIKE $1 OR email ILIKE $1`. -/
def matchesEmployeeSearch (q : Str) (e : EmployeeRow) : Bool :=
  ilike e.nama (likePattern q) ||
    optIlike e.posisi (likePattern q) ||
    optIlike e.email (likePattern q)

/-- GET `/api/employees` (part_000 lines 254-270). -/
def getEmployeesAlt (db : DB) (search : Option Str) : List EmployeeRow :=
  match search with
  | none => db.employees
  | some q => if q.isEmpty then db.employees else db.employees.filter (matchesEmployeeSearch q)

/-- POST `/api/employees` (part_000 lines 273-284): INSERT with no prior
validation; any SQL error (including a missing NOT NULL `nama`) → 500. -/
def postEmployeeAlt (db : DB) (b : EmployeeBody) : Nat × DB × Option EmployeeRow :=
  match insertEmployeeRow db b with
  | .ok (db1, row) => (201, db1, some row)
  | .error _ => (500, db, none)

/-- PUT `/api/employees/:id` (part_000 lines 287-302). -/
def putEmployeeAlt (db : DB) (i : Nat) (nm ps em : Option Str) :
    Nat × DB × Option EmployeeRow :=
  match db.employees.filter fun e => e.id == i with
  | [] => (404, db, none)
  | _ :: _ =>
    match nm with
    | none => (500, db, none)
    | some n =>
      let upd := fun (e : EmployeeRow) =>
        if e.id == i then { e with nama := n, posisi := ps, email := em } else e
      (200, { db with employees := db.employees.map upd },
       ((db.employees.filter fun e => e.id == i).map upd).head?)

/-- DELETE `/api/employees/:id` (part_000 lines 305-318). -/
def deleteEmployeeAlt (db : DB) (i : Nat) : Nat × DB × Option EmployeeRow :=
  match db.employees.filter fun e => e.id == i with
  | [] => (404, db, none)
  | e :: _ =>
    (200, { db with employees := db.employees.filter fun t => !(t.id == i) }, some e)


/-! ## Concrete database states used by counterexamples and witnesses -/

/-- A state whose stock row carries a stale denormalized name: the product
was renamed to "New" but the stock copy still says "Old". -/
def dbStale : DB :=
  ⟨[⟨1, str "P1", str "New", none⟩], [⟨1, some (str "P1"), str "Old", some 5⟩], [], 2, 2, 1⟩

/-- A consistent one-product state before any rename: product "P1" named
"Old" with a matching stock row of quantity 5. -/
def dbOld : DB :=
  ⟨[⟨1, str "P1", str "Old", none⟩], [⟨1, some (str "P1"), str "Old", some 5⟩], [], 2, 2, 1⟩

/-- A one-product database with no stock rows yet. -/
def dbProd : DB := ⟨[⟨1, str "P1", str "Widget", none⟩], [], [], 2, 1, 1⟩

/-- A database with one product ("P1" named "Y Panel") and one employee
("Ana", position "Boss") for exercising the search filters. -/
def dbSearch : DB :=
  ⟨[⟨1, str "P1", str "Y Panel", none⟩], [], [⟨1, str "Ana", some (str "Boss"), none⟩], 2, 1, 2⟩

/-- Referential integrity of the stock table: every non-NULL stock business
key references an existing product (the schema's foreign key). -/
def refIntact (db : DB) : Prop :=
  ∀ t ∈ db.stock, ∀ k2 : Str, t.id_produk = some k2 →
    ∃ r ∈ db.products, r.id_produk = k2

/-! ## General helper lemmas -/

/-- `find?` returns the head of `filter`. -/
theorem find_eq_head_filter {α : Type} (p : α → Bool) (l : List α) :
    l.find? p = (l.filter p).head? := by
  induction l with
  | nil => rfl
  | cons a l ih =>
    by_cases h : p a = true
    · rw [List.find?_cons_of_pos _ h, List.filter_cons_of_pos h, List.head?_cons]
    · have h2 : p a = false := by simpa using h
      rw [List.find?_cons_of_neg _ (by simp [h2]), List.filter_cons_of_neg (by simp [h2]), ih]

/-- `filter` commutes with a `map` whose function does not change the
filtered predicate. -/
theorem filter_map_comm {α : Type} (p : α → Bool) (f : α → α)
    (hf : ∀ a, p (f a) = p a) (l : List α) :
    (l.map f).filter p = (l.filter p).map f := by
  induction l with
  | nil => rfl
  | cons a l ih =>
    by_cases h : p a = true
    · simp [List.filter, hf, h, ih]
    · simp only [Bool.not_eq_true] at h
      simp [List.filter, hf, h, ih]

/-- Membership in `insertDesc`. -/
theorem mem_insertDesc (a x : StockRow) (l : List StockRow) :
    x ∈ insertDesc a l ↔ x = a ∨ x ∈ l := by
  induction l with
  | nil => simp [insertDesc]
  | cons b l ih =>
    by_cases h : b.id ≤ a.id
    · simp [insertDesc, h]
    · simp [insertDesc, h, ih]
      tauto

/-- Sorting by descending id preserves membership. -/
theorem mem_sortByIdDesc (x : StockRow) (l : List StockRow) :
    x ∈ sortByIdDesc l ↔ x ∈ l := by
  induction l with
  | nil => simp [sortByIdDesc]
  | cons a l ih => simp [sortByIdDesc, mem_insertDesc, ih]

/-! ## `LIKE` lemmas: on a wildcard-free needle, `%needle%` is exactly the
case-blind substring test -/

/-- The empty pattern fragment matched over all suffixes succeeds (the last
suffix is empty). -/
theorem tails_any_isEmpty (cs : Str) : ((tails cs).any fun t => t.isEmpty) = true := by
  induction cs with
  | nil => rfl
  | cons c ct ih => simp [tails, List.any_cons, ih]

/-- A pattern that is just `%` matches everything. -/
theorem likeMatch_pct_all (cs : Str) : likeMatch ['%'] cs = true := by
  simp [likeMatch, tails_any_isEmpty]

/-- On a wildcard-free needle `s`, the pattern `s%` is the starts-with
test. -/
theorem likeMatch_lead (s : Str) (hs : wildcardFree s = true) :
    ∀ cs, likeMatch (s ++ ['%']) cs = leadMatch s cs := by
  induction s with
  | nil => intro cs; rw [List.nil_append, likeMatch_pct_all, leadMatch]
  | cons a s ih =>
    intro cs
    rw [wildcardFree, List.all_cons] at hs
    have h1 : ¬(a = '%') := by
      intro h; subst h; simp at hs
    have h2 : ¬(a = '_') := by
      intro h; subst h; simp at hs
    have h3 : ¬(a = '\\') := by
      intro h; subst h; simp at hs
    have hrest : wildcardFree s = true := by
      rw [wildcardFree]; exact (Bool.and_eq_true _ _ |>.mp hs).2
    have ih2 := ih hrest
    cases cs with
    | nil =>
      rw [List.cons_append, likeMatch.eq_def]
      dsimp only
      rw [if_neg h1, if_neg h2, if_neg h3, leadMatch]
    | cons c ct =>
      rw [List.cons_append, likeMatch.eq_def]
      dsimp only
      rw [if_neg h1, if_neg h2, if_neg h3, leadMatch, ih2]

/-- `subMatch` is the starts-with test applied to each suffix. -/
theorem subMatch_tails (s : Str) : ∀ cs, subMatch s cs = (tails cs).any (leadMatch s) := by
  intro cs
  induction cs with
  | nil => rw [subMatch, tails]; simp [List.any_cons]
  | cons b t ih => rw [subMatch, tails]; simp [List.any_cons, ih]

/-- On a wildcard-free needle `s`, the `LIKE` pattern `%s%` is exactly the
substring test. -/
theorem likeMatch_sub (s : Str) (hs : wildcardFree s = true) (cs : Str) :
    likeMatch ('%' :: (s ++ ['%'])) cs = subMatch s cs := by
  rw [likeMatch.eq_def]
  dsimp only
  rw [if_pos rfl, subMatch_tails]
  have hfun : (fun t => likeMatch (s ++ ['%']) t) = leadMatch s :=
    funext fun t => likeMatch_lead s hs t
  rw [hfun]

/-- ASCII lowercasing maps `A`-`Z` into `a`-`z` and fixes everything else,
so it never produces a `LIKE` metacharacter from a non-metacharacter. -/
theorem toLower_keeps_nonwild (c : Char)
    (h : (c == '%' || c == '_' || c == '\\') = false) :
    (c.toLower == '%' || c.toLower == '_' || c.toLower == '\\') = false := by
  unfold Char.toLower
  dsimp only
  split
  case isTrue hup =>
    have hv : (Char.ofNat (c.toNat + 32)).toNat = c.toNat + 32 := by
      unfold Char.ofNat
      rw [dif_pos (Or.inl (by omega))]
      rfl
    have e1 : (Char.ofNat (c.toNat + 32) == '%') = false := by
      rw [beq_eq_false_iff_ne]
      intro heq
      have hnum := congrArg Char.toNat heq
      rw [hv] at hnum
      have hch : ('%' : Char).toNat = 37 := by decide
      rw [hch] at hnum
      omega
    have e2 : (Char.ofNat (c.toNat + 32) == '_') = false := by
      rw [beq_eq_false_iff_ne]
      intro heq
      have hnum := congrArg Char.toNat heq
      rw [hv] at hnum
      have hch : ('_' : Char).toNat = 95 := by decide
      rw [hch] at hnum
      omega
    have e3 : (Char.ofNat (c.toNat + 32) == '\\') = false := by
      rw [beq_eq_false_iff_ne]
      intro heq
      have hnum := congrArg Char.toNat heq
      rw [hv] at hnum
      have hch : ('\\' : Char).toNat = 92 := by decide
      rw [hch] at hnum
      omega
    rw [e1, e2, e3]
    rfl
  case isFalse => exact h

/-- Lowercasing preserves wildcard-freedom. -/
theorem lower_wildcardFree (q : Str) (h : wildcardFree q = true) :
    wildcardFree (lowerStr q) = true := by
  induction q with
  | nil => rfl
  | cons c q ih =>
    rw [wildcardFree, List.all_cons, Bool.and_eq_true] at h
    obtain ⟨hc, hrest⟩ := h
    have hc2 : (c == '%' || c == '_' || c == '\\') = false := by
      cases hw : (c == '%' || c == '_' || c == '\\') with
      | false => rfl
      | true => rw [hw] at hc; exact absurd hc (by decide)
    rw [lowerStr, List.map_cons, wildcardFree, List.all_cons]
    have := toLower_keeps_nonwild c hc2
    rw [this]
    have ihr : wildcardFree (lowerStr q) = true := ih (by rw [wildcardFree]; exact hrest)
    rw [wildcardFree] at ihr
    rw [lowerStr] at ihr
    simp only [Bool.not_false, Bool.true_and]
    exact ihr

/-- Lowercasing the handler's pattern keeps the shape `%needle%` with the
needle lowercased. -/
theorem lower_likePattern (q : Str) :
    lowerStr (likePattern q) = '%' :: (lowerStr q ++ ['%']) := by
  have h1 : Char.toLower '%' = '%' := by decide
  simp only [likePattern, lowerStr, List.map_cons, List.map_append, List.map_nil, h1]
  rfl

/-- On a wildcard-free search string the code's `ILIKE '%q%'` filter agrees
with the spec's case-insensitive substring test. -/
theorem ilike_eq_ciSub (v q : Str) (hq : wildcardFree q = true) :
    ilike v (likePattern q) = ciSub q v := by
  rw [ilike, lower_likePattern, likeMatch_sub _ (lower_wildcardFree q hq), ciSub]

/-- `ilike_eq_ciSub` for a nullable column. -/
theorem optIlike_eq_optCiSub (v : Option Str) (q : Str) (hq : wildcardFree q = true) :
    optIlike v (likePattern q) = optCiSub q v := by
  cases v with
  | none => rfl
  | some s => rw [optIlike, optCiSub, ilike_eq_ciSub s q hq]

/-! ## Claim C9 -/

/-- Claim C9: the two variants' stock listings are inequivalent as
functions of the database state.  On the stale state `dbStale` the Main
variant (LEFT JOIN with `products`) reports the product's current name
"New", while the Alt variant reports the denormalized copy "Old" stored on
the stock row, so the two listings disagree on the name column. -/
theorem stockList_variants_differ :
    ((getStockMain dbStale).map fun v => v.nama_produk) = [some (str "New")]
    ∧ ((getStockAlt dbStale none).map fun v => v.nama_produk) = [str "Old"]
    ∧ ((getStockMain dbStale).map fun v => v.nama_produk)
        ≠ ((getStockAlt dbStale none).map fun v => some v.nama_produk) := by
  refine ⟨by decide, by decide, by decide⟩

/-! ## Claim C1 -/

/-- Claim C1, counterexample: in the Alt variant (part_000), renaming
product "P1" from "Old" to "New" succeeds (200) but leaves the stock row's
denormalized name at "Old", and the Alt variant's subsequent stock fetch
still returns "Old", not the new name. -/
theorem putProductAlt_no_propagation :
    (putProductAlt dbOld (str "P1") (some (str "New")) none).1 = 200
    ∧ (((putProductAlt dbOld (str "P1") (some (str "New")) none).2.1).stock.map
        fun t => t.nama_produk) = [str "Old"]
    ∧ ((getStockAlt ((putProductAlt dbOld (str "P1") (some (str "New")) none).2.1) none).map
        fun v => v.nama_produk) = [str "Old"]
    ∧ str "Old" ≠ str "New" := by
  refine ⟨by decide, by decide, by decide, by decide⟩

/-- Claim C1 (amended): in the Main variant (inventory_backend.js), for a
product with internal id `i` and a dependent stock row, renaming the
product updates the denormalized name in the matching stock row in the
same handler, and a subsequent stock fetch (the stock listing) shows the
new name for that business key.  (The Alt variant does not propagate the
rename: see `putProductAlt_no_propagation`.) -/
theorem putProductMain_renames_stock
    (db : DB) (i : Nat) (p : ProductRow) (s : StockRow) (n : Str) (kat : Option Str)
    (hpid : db.products.filter (fun r => r.id == i) = [p])
    (hpkey : db.products.filter (fun r => r.id_produk == p.id_produk) = [p])
    (hs : db.stock.filter (fun t => t.id_produk == some p.id_produk) = [s]) :
    (putProductMain db i (some n) kat).1 = 200
    ∧ ((putProductMain db i (some n) kat).2.1).stock.filter
        (fun t => t.id_produk == some p.id_produk) = [{ s with nama_produk := n }]
    ∧ (∀ v ∈ getStockMain ((putProductMain db i (some n) kat).2.1),
        v.id_produk = some p.id_produk → v.nama_produk = some n)
    ∧ (∃ v ∈ getStockMain ((putProductMain db i (some n) kat).2.1),
        v.id_produk = some p.id_produk) := by
  have hp1 : p ∈ db.products.filter (fun r => r.id == i) := by
    rw [hpid]; exact List.mem_singleton.mpr rfl
  have hpmem := List.mem_filter.mp hp1
  have hpidtrue : (p.id == i) = true := hpmem.2
  have hs1 : s ∈ db.stock.filter (fun t => t.id_produk == some p.id_produk) := by
    rw [hs]; exact List.mem_singleton.mpr rfl
  have hsmem := List.mem_filter.mp hs1
  have hsid : s.id_produk = some p.id_produk := eq_of_beq hsmem.2
  simp only [putProductMain, hpid]
  set updP : ProductRow → ProductRow :=
    fun r => if r.id == i then { r with nama_produk := n, kategori_produk := kat } else r
    with hupdP
  set key : Option Str :=
    ((db.products.map updP).find? fun r => r.id == i).map (fun r => r.id_produk) with hkey
  set updS : StockRow → StockRow :=
    fun t => if sqlEq t.id_produk key then { t with nama_produk := n } else t with hupdS
  have hPidpres : ∀ r : ProductRow, ((updP r).id == i) = (r.id == i) := by
    intro r
    rw [hupdP]
    cases hb : (r.id == i) with
    | true => simp [hb]
    | false => simp [hb]
  have hPkeypres : ∀ r : ProductRow, ((updP r).id_produk == p.id_produk) = (r.id_produk == p.id_produk) := by
    intro r
    rw [hupdP]
    cases hb : (r.id == i) with
    | true => simp [hb]
    | false => simp [hb]
  have hupdPp : updP p = { p with nama_produk := n, kategori_produk := kat } := by
    rw [hupdP]
    simp [hpidtrue]
  have hkeyval : key = some p.id_produk := by
    rw [hkey, find_eq_head_filter, filter_map_comm _ _ hPidpres, hpid]
    simp [hupdPp]
  have hSpres : ∀ t : StockRow, ((updS t).id_produk == some p.id_produk) = (t.id_produk == some p.id_produk) := by
    intro t
    rw [hupdS]
    cases hb : sqlEq t.id_produk key with
    | true => simp [hb]
    | false => simp [hb]
  have hupdSs : updS s = { s with nama_produk := n } := by
    rw [hupdS]
    have hcond : sqlEq s.id_produk key = true := by
      rw [hsid, hkeyval]
      simp [sqlEq]
    simp only [hcond, if_true]
  refine ⟨trivial, ?_, ?_, ?_⟩
  · rw [filter_map_comm _ _ hSpres, hs]
    simp [hupdSs]
  · intro v hv hvid
    simp only [getStockMain] at hv
    obtain ⟨t, ht, rfl⟩ := List.mem_map.mp hv
    rw [mem_sortByIdDesc] at ht
    simp only at hvid
    simp only [hvid]
    have hpredeq : (fun r : ProductRow => sqlEq (some r.id_produk) (some p.id_produk))
        = fun r => r.id_produk == p.id_produk := funext fun r => rfl
    rw [hpredeq, find_eq_head_filter, filter_map_comm _ _ hPkeypres, hpkey]
    simp [hupdPp]
  · have hmem : updS s ∈ List.map updS db.stock := List.mem_map_of_mem _ hsmem.1
    simp only [getStockMain]
    refine ⟨_, List.mem_map_of_mem _ ((mem_sortByIdDesc _ _).mpr hmem), ?_⟩
    simp [hupdSs, hsid]

/-- Witness for `putProductMain_renames_stock` on `dbOld`: renaming product
"P1" to "New" also renames the stock row's copy, and the fetch shows
"New". -/
theorem putProductMain_renames_stock_witness :
    (putProductMain dbOld 1 (some (str "New")) none).1 = 200
    ∧ ((putProductMain dbOld 1 (some (str "New")) none).2.1).stock.filter
        (fun t => t.id_produk == some (str "P1")) = [⟨1, some (str "P1"), str "New", some 5⟩]
    ∧ (∀ v ∈ getStockMain ((putProductMain dbOld 1 (some (str "New")) none).2.1),
        v.id_produk = some (str "P1") → v.nama_produk = some (str "New"))
    ∧ (∃ v ∈ getStockMain ((putProductMain dbOld 1 (some (str "New")) none).2.1),
        v.id_produk = some (str "P1")) := by
  exact putProductMain_renames_stock dbOld 1 ⟨1, str "P1", str "Old", none⟩
    ⟨1, some (str "P1"), str "Old", some 5⟩ (str "New") none
    (by decide) (by decide) (by decide)

/-! ## Claim C2 -/

/-- Claim C2, counterexample: in the Main variant (inventory_backend.js)
the second create with the same business key fails with 500, not with the
409 Conflict the claim states: the handler's catch-all maps the unique
violation to 500. -/
theorem postProductMain_duplicate_500 :
    (postProductMain dbEmpty ⟨some (str "P1"), some (str "Widget"), none⟩).1 = 201
    ∧ (postProductMain ((postProductMain dbEmpty ⟨some (str "P1"), some (str "Widget"), none⟩).2.1)
        ⟨some (str "P1"), some (str "Gadget"), none⟩).1 = 500
    ∧ (500 : Nat) ≠ 409 := by
  refine ⟨by decide, by decide, by decide⟩

/-- Claim C2 (amended): for a fresh business key, the first create succeeds
with 201 and returns the created row; a second create with the same key
fails on the unique constraint without touching the table — with status
409 (Conflict) in the Alt variant (part_000) and status 500 in the Main
variant (inventory_backend.js) — and the first row is still present. -/
theorem productCreate_duplicate_conflict
    (db : DB) (k n m : Str) (kat kat2 : Option Str)
    (hk : k ≠ []) (hn : n ≠ []) (hm : m ≠ [])
    (hfresh : db.products.filter (fun r => r.id_produk == k) = []) :
    ((postProductAlt db ⟨some k, some n, kat⟩).1 = 201
      ∧ (postProductAlt db ⟨some k, some n, kat⟩).2.2 = some ⟨db.productSeq, k, n, kat⟩
      ∧ postProductAlt ((postProductAlt db ⟨some k, some n, kat⟩).2.1) ⟨some k, some m, kat2⟩
          = (409, (postProductAlt db ⟨some k, some n, kat⟩).2.1, none)
      ∧ (⟨db.productSeq, k, n, kat⟩ : ProductRow)
          ∈ ((postProductAlt db ⟨some k, some n, kat⟩).2.1).products)
    ∧ ((postProductMain db ⟨some k, some n, kat⟩).1 = 201
      ∧ (postProductMain db ⟨some k, some n, kat⟩).2.2 = some ⟨db.productSeq, k, n, kat⟩
      ∧ postProductMain ((postProductMain db ⟨some k, some n, kat⟩).2.1) ⟨some k, some m, kat2⟩
          = (500, (postProductMain db ⟨some k, some n, kat⟩).2.1, none)
      ∧ (⟨db.productSeq, k, n, kat⟩ : ProductRow)
          ∈ ((postProductMain db ⟨some k, some n, kat⟩).2.1).products) := by
  set row : ProductRow := ⟨db.productSeq, k, n, kat⟩ with hrow
  set dbA : DB := { db with products := db.products ++ [row], productSeq := db.productSeq + 1 }
    with hdbA
  have hkf : falsy (some k) = false := by
    cases k with
    | nil => exact absurd rfl hk
    | cons a t => rfl
  have hnf : falsy (some n) = false := by
    cases n with
    | nil => exact absurd rfl hn
    | cons a t => rfl
  have hmf : falsy (some m) = false := by
    cases m with
    | nil => exact absurd rfl hm
    | cons a t => rfl
  have hins : insertProductRow db ⟨some k, some n, kat⟩ = .ok (dbA, row) := by
    simp [insertProductRow, hfresh, hdbA, hrow]
  have hfil2 : dbA.products.filter (fun r => r.id_produk == k) = [row] := by
    rw [hdbA]
    simp [List.filter_append, hfresh, hrow]
  have hins2 : insertProductRow dbA ⟨some k, some m, kat2⟩ = .error .uniqueViolation := by
    simp [insertProductRow, hfil2]
  have hmem : row ∈ dbA.products := by
    rw [hdbA]
    simp
  have hrunAlt : postProductAlt db ⟨some k, some n, kat⟩ = (201, dbA, some row) := by
    simp [postProductAlt, hins]
  have hrunMain : postProductMain db ⟨some k, some n, kat⟩ = (201, dbA, some row) := by
    simp [postProductMain, hkf, hnf, hins]
  constructor
  · rw [hrunAlt]
    refine ⟨rfl, rfl, ?_, hmem⟩
    simp [postProductAlt, hins2]
  · rw [hrunMain]
    refine ⟨rfl, rfl, ?_, hmem⟩
    simp [postProductMain, hkf, hmf, hins2]

/-- Witness for `productCreate_duplicate_conflict` starting from the empty
database with key "P1". -/
theorem productCreate_duplicate_conflict_witness :
    ((postProductAlt dbEmpty ⟨some (str "P1"), some (str "Widget"), none⟩).1 = 201
      ∧ (postProductAlt dbEmpty ⟨some (str "P1"), some (str "Widget"), none⟩).2.2
          = some ⟨1, str "P1", str "Widget", none⟩
      ∧ postProductAlt ((postProductAlt dbEmpty ⟨some (str "P1"), some (str "Widget"), none⟩).2.1)
            ⟨some (str "P1"), some (str "Gadget"), none⟩
          = (409, (postProductAlt dbEmpty ⟨some (str "P1"), some (str "Widget"), none⟩).2.1, none)
      ∧ (⟨1, str "P1", str "Widget", none⟩ : ProductRow)
          ∈ ((postProductAlt dbEmpty ⟨some (str "P1"), some (str "Widget"), none⟩).2.1).products)
    ∧ ((postProductMain dbEmpty ⟨some (str "P1"), some (str "Widget"), none⟩).1 = 201
      ∧ (postProductMain dbEmpty ⟨some (str "P1"), some (str "Widget"), none⟩).2.2
          = some ⟨1, str "P1", str "Widget", none⟩
      ∧ postProductMain ((postProductMain dbEmpty ⟨some (str "P1"), some (str "Widget"), none⟩).2.1)
            ⟨some (str "P1"), some (str "Gadget"), none⟩
          = (500, (postProductMain dbEmpty ⟨some (str "P1"), some (str "Widget"), none⟩).2.1, none)
      ∧ (⟨1, str "P1", str "Widget", none⟩ : ProductRow)
          ∈ ((postProductMain dbEmpty ⟨some (str "P1"), some (str "Widget"), none⟩).2.1).products) := by
  exact productCreate_duplicate_conflict dbEmpty (str "P1") (str "Widget") (str "Gadget")
    none none (by decide) (by decide) (by decide) (by decide)

/-! ## Claim C3 -/

/-- Claim C3: under the Main variant's upsert policy, creating stock for a
key that already has a stock row of quantity `q` with a request quantity
`d` yields 201, leaves exactly one stock row for the key with quantity
`q + d` (accumulation, not replacement), and returns that updated row. -/
theorem stockCreate_upsert_accumulates
    (db : DB) (k : Str) (q d : Int) (p : ProductRow) (s : StockRow) (nm : Option Str)
    (hk : k ≠ [])
    (hp : db.products.find? (fun r => r.id_produk == k) = some p)
    (hs : db.stock.filter (fun t => t.id_produk == some k) = [s])
    (hq : s.jumlah_stok = some q) :
    (postStockMain db ⟨some k, nm, some d⟩).1 = 201
    ∧ ((postStockMain db ⟨some k, nm, some d⟩).2.1).stock.filter
        (fun t => t.id_produk == some k) = [{ s with jumlah_stok := some (q + d) }]
    ∧ (postStockMain db ⟨some k, nm, some d⟩).2.2
        = some { s with jumlah_stok := some (q + d) } := by
  have hkf : falsy (some k) = false := by
    cases k with
    | nil => exact absurd rfl hk
    | cons a t => rfl
  have hs1 : s ∈ db.stock.filter (fun t => t.id_produk == some k) := by
    rw [hs]; exact List.mem_singleton.mpr rfl
  have hsmem := List.mem_filter.mp hs1
  have hsidtrue : (s.id_produk == some k) = true := hsmem.2
  have hfind : db.stock.find? (fun t => t.id_produk == some k) = some s := by
    rw [find_eq_head_filter, hs]; rfl
  simp only [postStockMain, hkf, hp, hfind, Option.isNone_some, Bool.or_false, Bool.false_or,
    if_neg Bool.false_ne_true]
  set upd : StockRow → StockRow :=
    fun t => if t.id_produk == some k then { t with jumlah_stok := some (s.jumlah_stok.getD 0 + d) } else t
    with hupd
  have hpres : ∀ t : StockRow, ((upd t).id_produk == some k) = (t.id_produk == some k) := by
    intro t
    rw [hupd]
    cases hb : (t.id_produk == some k) with
    | true => simp [hb]
    | false => simp [hb]
  have hupds : upd s = { s with jumlah_stok := some (q + d) } := by
    rw [hupd]
    simp [hsidtrue, hq]
  refine ⟨trivial, ?_, ?_⟩
  · rw [filter_map_comm _ _ hpres, hs]
    simp [hupds]
  · rw [hs]
    simp [hupds]


/-- Witness for `stockCreate_upsert_accumulates`: inserting quantity 5 and
then quantity 3 for the same key leaves a single row of quantity 8. -/
theorem stockCreate_upsert_accumulates_witness :
    (postStockMain ((postStockMain dbProd ⟨some (str "P1"), none, some 5⟩).2.1)
        ⟨some (str "P1"), none, some 3⟩).1 = 201
    ∧ (((postStockMain ((postStockMain dbProd ⟨some (str "P1"), none, some 5⟩).2.1)
        ⟨some (str "P1"), none, some 3⟩).2.1).stock.filter
          (fun t => t.id_produk == some (str "P1")))
        = [⟨1, some (str "P1"), str "Widget", some 8⟩]
    ∧ (postStockMain ((postStockMain dbProd ⟨some (str "P1"), none, some 5⟩).2.1)
        ⟨some (str "P1"), none, some 3⟩).2.2
        = some ⟨1, some (str "P1"), str "Widget", some 8⟩ := by
  exact stockCreate_upsert_accumulates
    ((postStockMain dbProd ⟨some (str "P1"), none, some 5⟩).2.1)
    (str "P1") 5 3 ⟨1, str "P1", str "Widget", none⟩ ⟨1, some (str "P1"), str "Widget", some 5⟩
    none (by decide) (by decide) (by decide) (by decide)

/-! ## Claim C4 -/

/-- Claim C4: deleting a product by internal id in the Main variant
(inventory_backend.js) answers 204 and, through the schema's `ON DELETE
CASCADE`, removes every dependent stock row: afterwards no stock row (and
no row of the stock listing) carries that business key, and referential
integrity of the stock table is preserved. -/
theorem productDelete_cascades
    (db : DB) (i : Nat) (p : ProductRow)
    (hpid : db.products.filter (fun r => r.id == i) = [p]) :
    (deleteProductMain db i).1 = 204
    ∧ ((deleteProductMain db i).2.1).stock.filter
        (fun t => t.id_produk == some p.id_produk) = []
    ∧ (∀ v ∈ getStockMain ((deleteProductMain db i).2.1), v.id_produk ≠ some p.id_produk)
    ∧ (refIntact db → refIntact (deleteProductMain db i).2.1) := by
  have hp1 : p ∈ db.products.filter (fun r => r.id == i) := by
    rw [hpid]; exact List.mem_singleton.mpr rfl
  have hpmem := List.mem_filter.mp hp1
  have hpidtrue : (p.id == i) = true := hpmem.2
  simp only [deleteProductMain, hpid]
  set keep : StockRow → Bool :=
    fun t => !(db.products.any fun r => r.id == i && some r.id_produk == t.id_produk) with hkeep
  have hkeepkey : ∀ t : StockRow, keep t = true → (t.id_produk == some p.id_produk) = false := by
    intro t hkt
    cases hb : (t.id_produk == some p.id_produk) with
    | false => rfl
    | true =>
      exfalso
      have htid : t.id_produk = some p.id_produk := eq_of_beq hb
      have hkt2 : (!(db.products.any fun r => r.id == i && some r.id_produk == t.id_produk))
          = true := hkt
      have hany : (db.products.any fun r => r.id == i && some r.id_produk == t.id_produk)
          = true := by
        rw [List.any_eq_true]
        exact ⟨p, hpmem.1, by rw [htid]; simp [hpidtrue]⟩
      rw [hany] at hkt2
      exact absurd hkt2 (by decide)
  refine ⟨trivial, ?_, ?_, ?_⟩
  · rw [List.filter_eq_nil_iff]
    intro t ht
    have hm := List.mem_filter.mp ht
    rw [hkeepkey t hm.2]
    exact fun h => absurd h (by decide)
  · intro v hv
    simp only [getStockMain] at hv
    obtain ⟨t, ht, rfl⟩ := List.mem_map.mp hv
    rw [mem_sortByIdDesc] at ht
    have hm := List.mem_filter.mp ht
    have := hkeepkey t hm.2
    simp only []
    intro hcontra
    rw [hcontra] at this
    simp at this
  · intro hri t ht k2 htk
    have hm := List.mem_filter.mp ht
    obtain ⟨r, hrmem, hrk⟩ := hri t hm.1 k2 htk
    refine ⟨r, ?_, hrk⟩
    apply List.mem_filter.mpr
    refine ⟨hrmem, ?_⟩
    cases hb : (r.id == i) with
    | false => rfl
    | true =>
      exfalso
      have hrp : r = p := by
        have : r ∈ db.products.filter (fun x => x.id == i) :=
          List.mem_filter.mpr ⟨hrmem, hb⟩
        rw [hpid] at this
        exact List.mem_singleton.mp this
      have hkt2 : (!(db.products.any fun r => r.id == i && some r.id_produk == t.id_produk))
          = true := hm.2
      have hany : (db.products.any fun r => r.id == i && some r.id_produk == t.id_produk)
          = true := by
        rw [List.any_eq_true]
        refine ⟨p, hpmem.1, ?_⟩
        rw [htk, ← hrk, hrp]
        simp [hpidtrue]
      rw [hany] at hkt2
      exact absurd hkt2 (by decide)

/-- Witness for `productDelete_cascades` on `dbOld`: deleting product 1
("P1") empties the stock rows for "P1", the listing shows none, and
referential integrity is preserved. -/
theorem productDelete_cascades_witness :
    (deleteProductMain dbOld 1).1 = 204
    ∧ ((deleteProductMain dbOld 1).2.1).stock.filter
        (fun t => t.id_produk == some (str "P1")) = []
    ∧ (∀ v ∈ getStockMain ((deleteProductMain dbOld 1).2.1), v.id_produk ≠ some (str "P1"))
    ∧ (refIntact dbOld → refIntact (deleteProductMain dbOld 1).2.1) := by
  exact productDelete_cascades dbOld 1 ⟨1, str "P1", str "Old", none⟩ (by decide)

/-! ## Claim C5 -/

/-- Claim C5: a stock create whose business key references no product
fails without touching the stock table: the Main (upsert) variant answers
404 after its product lookup, and the Alt (strict) variant answers 400
from the foreign-key violation; in both, the database is returned
unchanged. -/
theorem stockCreate_missing_product
    (db : DB) (k : Str) (d : Int) (nm : Str) (nmOpt : Option Str)
    (hk : k ≠ [])
    (hnp : db.products.filter (fun r => r.id_produk == k) = [])
    (hns : db.stock.filter (fun t => t.id_produk == some k) = []) :
    postStockMain db ⟨some k, nmOpt, some d⟩ = (404, db, none)
    ∧ postStockAlt db ⟨some k, some nm, some d⟩ = (400, db, none) := by
  have hkf : falsy (some k) = false := by
    cases k with
    | nil => exact absurd rfl hk
    | cons a t => rfl
  have hfindp : db.products.find? (fun r => r.id_produk == k) = none := by
    rw [find_eq_head_filter, hnp]; rfl
  constructor
  · simp [postStockMain, hkf, hfindp]
  · have hcong : db.products.filter (fun r => some r.id_produk == some k)
        = db.products.filter (fun r => r.id_produk == k) :=
      List.filter_congr (fun r _ => rfl)
    have hins : insertStockRow db (some k) (some nm) (some d) = .error .fkViolation := by
      simp [insertStockRow, hns, hcong, hnp]
    simp [postStockAlt, hins]

/-- Witness for `stockCreate_missing_product`: creating stock for the
unknown key "ZZ" on `dbOld` fails with 404 (Main) and 400 (Alt), leaving
the database unchanged. -/
theorem stockCreate_missing_product_witness :
    postStockMain dbOld ⟨some (str "ZZ"), none, some 4⟩ = (404, dbOld, none)
    ∧ postStockAlt dbOld ⟨some (str "ZZ"), some (str "X"), some 4⟩ = (400, dbOld, none) := by
  exact stockCreate_missing_product dbOld (str "ZZ") 4 (str "X") none
    (by decide) (by decide) (by decide)

/-! ## Claim C6 -/

/-- Claim C6: every update or delete of a product, stock row, or employee
whose identifier (internal id `i` or business key `k`) matches no row
answers 404 and returns the database unchanged, in both variants. -/
theorem notFound_leaves_tables_unchanged
    (db : DB) (i : Nat) (k : Str)
    (nama kat : Option Str) (qty : Option Int) (nm2 ps2 em2 : Option Str)
    (hpId : db.products.filter (fun r => r.id == i) = [])
    (hpKey : db.products.filter (fun r => r.id_produk == k) = [])
    (hsId : db.stock.filter (fun t => t.id == i) = [])
    (hsKey : db.stock.filter (fun t => t.id_produk == some k) = [])
    (heId : db.employees.filter (fun e => e.id == i) = []) :
    putProductMain db i nama kat = (404, db, none)
    ∧ deleteProductMain db i = (404, db, none)
    ∧ putStockMain db i qty = (404, db, none)
    ∧ deleteStockMain db i = (404, db, none)
    ∧ putEmployeeMain db i nm2 ps2 em2 = (404, db, none)
    ∧ deleteEmployeeMain db i = (404, db, none)
    ∧ putProductAlt db k nama kat = (404, db, none)
    ∧ deleteProductAlt db k = (404, db, none)
    ∧ putStockAlt db k qty = (404, db, none)
    ∧ deleteStockAlt db k = (404, db, none)
    ∧ putEmployeeAlt db i nm2 ps2 em2 = (404, db, none)
    ∧ deleteEmployeeAlt db i = (404, db, none) := by
  refine ⟨?_, ?_, ?_, ?_, ?_, ?_, ?_, ?_, ?_, ?_, ?_, ?_⟩
  · simp [putProductMain, hpId]
  · simp [deleteProductMain, hpId]
  · simp [putStockMain, hsId]
  · simp [deleteStockMain, hsId]
  · simp [putEmployeeMain, heId]
  · simp [deleteEmployeeMain, heId]
  · simp [putProductAlt, hpKey]
  · simp [deleteProductAlt, hpKey]
  · simp [putStockAlt, hsKey]
  · simp [deleteStockAlt, hsKey]
  · simp [putEmployeeAlt, heId]
  · simp [deleteEmployeeAlt, heId]

/-- Witness for `notFound_leaves_tables_unchanged` on `dbOld` with the
unused internal id 99 and unused business key "ZZ". -/
theorem notFound_leaves_tables_unchanged_witness :
    putProductMain dbOld 99 (some (str "N")) none = (404, dbOld, none)
    ∧ deleteProductMain dbOld 99 = (404, dbOld, none)
    ∧ putStockMain dbOld 99 (some 7) = (404, dbOld, none)
    ∧ deleteStockMain dbOld 99 = (404, dbOld, none)
    ∧ putEmployeeMain dbOld 99 (some (str "A")) none none = (404, dbOld, none)
    ∧ deleteEmployeeMain dbOld 99 = (404, dbOld, none)
    ∧ putProductAlt dbOld (str "ZZ") (some (str "N")) none = (404, dbOld, none)
    ∧ deleteProductAlt dbOld (str "ZZ") = (404, dbOld, none)
    ∧ putStockAlt dbOld (str "ZZ") (some 7) = (404, dbOld, none)
    ∧ deleteStockAlt dbOld (str "ZZ") = (404, dbOld, none)
    ∧ putEmployeeAlt dbOld 99 (some (str "A")) none none = (404, dbOld, none)
    ∧ deleteEmployeeAlt dbOld 99 = (404, dbOld, none) := by
  exact notFound_leaves_tables_unchanged dbOld 99 (str "ZZ")
    (some (str "N")) none (some 7) (some (str "A")) none none
    (by decide) (by decide) (by decide) (by decide) (by decide)

/-! ## Claim C7 -/

/-- Claim C7, counterexample: in the Alt variant (part_000) a product
create with the required name missing is not rejected with 400 before the
database call — the INSERT is issued and the NOT NULL violation surfaces
as 500. -/
theorem postProductAlt_missing_field_500 :
    postProductAlt dbEmpty ⟨some (str "P9"), none, none⟩ = (500, dbEmpty, none)
    ∧ (500 : Nat) ≠ 400 := by
  refine ⟨by decide, by decide⟩

/-- Claim C7 (amended): only the Main variant (inventory_backend.js)
checks required fields before any database statement — a falsy business
key or product name (resp. employee name or position) is answered with 400
and the database is untouched.  The Alt variant (part_000) has no
pre-database validation: the INSERT is issued and a missing required
NOT NULL column comes back as a 500 database error (the table still
unchanged, since the INSERT fails). -/
theorem createValidation_variants
    (db : DB) (pb : ProductBody) (eb : EmployeeBody) (pb2 : ProductBody) (eb2 : EmployeeBody)
    (hpv : (falsy pb.id_produk || falsy pb.nama_produk) = true)
    (hev : (falsy eb.nama || falsy eb.posisi) = true)
    (hpn : pb2.id_produk = none ∨ pb2.nama_produk = none)
    (hen : eb2.nama = none) :
    postProductMain db pb = (400, db, none)
    ∧ postEmployeeMain db eb = (400, db, none)
    ∧ postProductAlt db pb2 = (500, db, none)
    ∧ postEmployeeAlt db eb2 = (500, db, none) := by
  have hins : insertProductRow db pb2 = .error .nullViolation := by
    rcases hpn with h | h
    · cases hnp : pb2.nama_produk with
      | none => simp [insertProductRow, h, hnp]
      | some v => simp [insertProductRow, h, hnp]
    · cases hip : pb2.id_produk with
      | none => simp [insertProductRow, h, hip]
      | some v => simp [insertProductRow, h, hip]
  have hins2 : insertEmployeeRow db eb2 = .error .nullViolation := by
    simp [insertEmployeeRow, hen]
  refine ⟨?_, ?_, ?_, ?_⟩
  · simp [postProductMain, hpv]
  · simp [postEmployeeMain, hev]
  · simp [postProductAlt, hins]
  · simp [postEmployeeAlt, hins2]

/-- Witness for `createValidation_variants`: a product create without a
business key and an employee create without a position get 400 in the Main
variant; a product create without a name and an employee create without a
name get 500 in the Alt variant — the empty database is unchanged in all
four. -/
theorem createValidation_variants_witness :
    postProductMain dbEmpty ⟨none, some (str "W"), none⟩ = (400, dbEmpty, none)
    ∧ postEmployeeMain dbEmpty ⟨some (str "A"), none, none⟩ = (400, dbEmpty, none)
    ∧ postProductAlt dbEmpty ⟨some (str "P8"), none, none⟩ = (500, dbEmpty, none)
    ∧ postEmployeeAlt dbEmpty ⟨none, some (str "B"), none⟩ = (500, dbEmpty, none) := by
  exact createValidation_variants dbEmpty ⟨none, some (str "W"), none⟩
    ⟨some (str "A"), none, none⟩ ⟨some (str "P8"), none, none⟩ ⟨none, some (str "B"), none⟩
    (by decide) (by decide) (Or.inr (by decide)) (by decide)

/-! ## Claim C10 -/

/-- Claim C10: the Main variant's stock create never reads a
client-supplied product name — two bodies agreeing on business key and
quantity produce identical results — and on the insert path (no stock row
for the key yet) the new row's denormalized name is copied from the
matching product row, so right after the create the stored stock row
carries the product's current name. -/
theorem stockCreate_copies_product_name
    (db : DB) (k : Str) (d : Int) (p : ProductRow) (nmOpt : Option Str)
    (b1 b2 : StockBody)
    (hb1 : b1.id_produk = b2.id_produk) (hb2 : b1.jumlah_stok = b2.jumlah_stok)
    (hk : k ≠ [])
    (hp : db.products.find? (fun r => r.id_produk == k) = some p)
    (hnone : db.stock.filter (fun t => t.id_produk == some k) = []) :
    postStockMain db b1 = postStockMain db b2
    ∧ (postStockMain db ⟨some k, nmOpt, some d⟩).1 = 201
    ∧ (postStockMain db ⟨some k, nmOpt, some d⟩).2.2
        = some ⟨db.stockSeq, some k, p.nama_produk, some d⟩
    ∧ ((postStockMain db ⟨some k, nmOpt, some d⟩).2.1).stock.filter
        (fun t => t.id_produk == some k) = [⟨db.stockSeq, some k, p.nama_produk, some d⟩] := by
  have hkf : falsy (some k) = false := by
    cases k with
    | nil => exact absurd rfl hk
    | cons a t => rfl
  have hfinds : db.stock.find? (fun t => t.id_produk == some k) = none := by
    rw [find_eq_head_filter, hnone]; rfl
  have hcong : db.products.filter (fun r => some r.id_produk == some k)
      = db.products.filter (fun r => r.id_produk == k) :=
    List.filter_congr (fun r _ => rfl)
  have hfpne : (db.products.filter (fun r => r.id_produk == k)).isEmpty = false := by
    have h1 : (db.products.filter (fun r => r.id_produk == k)).head? = some p := by
      rw [← find_eq_head_filter]; exact hp
    cases hfil : db.products.filter (fun r => r.id_produk == k) with
    | nil => rw [hfil] at h1; cases h1
    | cons a l => rfl
  have hins : insertStockRow db (some k) (some p.nama_produk) (some d) = .ok ({ db with stock := db.stock ++ [⟨db.stockSeq, some k, p.nama_produk, some d⟩], stockSeq := db.stockSeq + 1 }, ⟨db.stockSeq, some k, p.nama_produk, some d⟩) := by
    simp [insertStockRow, hnone, hcong, hfpne]
  refine ⟨?_, ?_, ?_, ?_⟩
  · simp only [postStockMain, hb1, hb2]
  · simp [postStockMain, hkf, hp, hfinds, hins]
  · simp [postStockMain, hkf, hp, hfinds, hins]
  · simp only [postStockMain, hkf, hp, hfinds, hins, Option.isNone_some, Bool.or_false,
      Bool.false_or, if_neg Bool.false_ne_true]
    simp [List.filter_append, hnone]

/-- Witness for `stockCreate_copies_product_name` on `dbProd`: a bogus
client name is ignored and the created row carries the product's name
"Widget". -/
theorem stockCreate_copies_product_name_witness :
    postStockMain dbProd ⟨some (str "P1"), some (str "Bogus"), some 5⟩
        = postStockMain dbProd ⟨some (str "P1"), none, some 5⟩
    ∧ (postStockMain dbProd ⟨some (str "P1"), some (str "Bogus"), some 5⟩).1 = 201
    ∧ (postStockMain dbProd ⟨some (str "P1"), some (str "Bogus"), some 5⟩).2.2
        = some ⟨1, some (str "P1"), str "Widget", some 5⟩
    ∧ ((postStockMain dbProd ⟨some (str "P1"), some (str "Bogus"), some 5⟩).2.1).stock.filter
        (fun t => t.id_produk == some (str "P1"))
        = [⟨1, some (str "P1"), str "Widget", some 5⟩] := by
  exact stockCreate_copies_product_name dbProd (str "P1") 5 ⟨1, str "P1", str "Widget", none⟩
    (some (str "Bogus")) ⟨some (str "P1"), some (str "Bogus"), some 5⟩
    ⟨some (str "P1"), none, some 5⟩ rfl rfl (by decide) (by decide) (by decide)

/-! ## Claim C8 -/

/-- The empty needle is a substring of everything. -/
theorem subMatch_nil (t : Str) : subMatch [] t = true := by
  cases t with
  | nil => rfl
  | cons b t2 => simp [subMatch, leadMatch]

/-- Claim C8, counterexample: the search parameter is interpolated into
the `ILIKE` pattern, so a search for `%` matches a row none of whose
fields contain the character `%` — the filter is not the substring test
for wildcard-carrying search strings. -/
theorem search_wildcard_counterexample :
    matchesProductSearch (str "%") ⟨1, str "q", str "a", none⟩ = true
    ∧ (ciSub (str "%") (str "a")
        || optCiSub (str "%") (none : Option Str)
        || ciSub (str "%") (str "q")) = false := by
  refine ⟨by decide, by decide⟩

/-- Claim C8 (amended): for every search string free of the `LIKE`
metacharacters `%`, `_`, `\`, the Alt variant's list filters match a row
exactly when the search string is a case-insensitive substring of at least
one of the searched fields (name, category, business key for products;
name, position, email for employees), with OR semantics across fields and
NULL fields never matching. -/
theorem search_substring_semantics
    (q : Str) (hq : wildcardFree q = true)
    (db : DB) (p : ProductRow) (e : EmployeeRow) :
    matchesProductSearch q p
      = (ciSub q p.nama_produk || optCiSub q p.kategori_produk || ciSub q p.id_produk)
    ∧ matchesEmployeeSearch q e
      = (ciSub q e.nama || optCiSub q e.posisi || optCiSub q e.email)
    ∧ (p ∈ getProductsAlt db (some q) ↔ p ∈ db.products ∧
        (ciSub q p.nama_produk || optCiSub q p.kategori_produk || ciSub q p.id_produk) = true)
    ∧ (e ∈ getEmployeesAlt db (some q) ↔ e ∈ db.employees ∧
        (ciSub q e.nama || optCiSub q e.posisi || optCiSub q e.email) = true) := by
  have hm1 : matchesProductSearch q p
      = (ciSub q p.nama_produk || optCiSub q p.kategori_produk || ciSub q p.id_produk) := by
    rw [matchesProductSearch, ilike_eq_ciSub _ _ hq, ilike_eq_ciSub _ _ hq,
      optIlike_eq_optCiSub _ _ hq]
  have hm2 : matchesEmployeeSearch q e
      = (ciSub q e.nama || optCiSub q e.posisi || optCiSub q e.email) := by
    rw [matchesEmployeeSearch, ilike_eq_ciSub _ _ hq, optIlike_eq_optCiSub _ _ hq,
      optIlike_eq_optCiSub _ _ hq]
  refine ⟨hm1, hm2, ?_, ?_⟩
  · cases q with
    | nil =>
      simp [getProductsAlt, ciSub, lowerStr, subMatch_nil]
    | cons c q2 =>
      simp [getProductsAlt, List.mem_filter, hm1]
  · cases q with
    | nil =>
      simp [getEmployeesAlt, ciSub, lowerStr, subMatch_nil]
    | cons c q2 =>
      simp [getEmployeesAlt, List.mem_filter, hm2]

/-- Witness for `search_substring_semantics` with the wildcard-free search
"aN" on a one-row products table and a one-row employees table: the
filter matches exactly the case-insensitive-substring rows. -/
theorem search_substring_semantics_witness :
    matchesProductSearch (str "aN") ⟨1, str "P1", str "Y Panel", none⟩
      = (ciSub (str "aN") (str "Y Panel") || optCiSub (str "aN") (none : Option Str)
          || ciSub (str "aN") (str "P1"))
    ∧ matchesEmployeeSearch (str "aN") ⟨1, str "Ana", some (str "Boss"), none⟩
      = (ciSub (str "aN") (str "Ana") || optCiSub (str "aN") (some (str "Boss"))
          || optCiSub (str "aN") (none : Option Str))
    ∧ ((⟨1, str "P1", str "Y Panel", none⟩ : ProductRow)
          ∈ getProductsAlt dbSearch (some (str "aN"))
        ↔ (⟨1, str "P1", str "Y Panel", none⟩ : ProductRow) ∈ dbSearch.products ∧
          (ciSub (str "aN") (str "Y Panel") || optCiSub (str "aN") (none : Option Str)
            || ciSub (str "aN") (str "P1")) = true)
    ∧ ((⟨1, str "Ana", some (str "Boss"), none⟩ : EmployeeRow)
          ∈ getEmployeesAlt dbSearch (some (str "aN"))
        ↔ (⟨1, str "Ana", some (str "Boss"), none⟩ : EmployeeRow) ∈ dbSearch.employees ∧
          (ciSub (str "aN") (str "Ana") || optCiSub (str "aN") (some (str "Boss"))
            || optCiSub (str "aN") (none : Option Str)) = true) := by
  exact search_substring_semantics (str "aN") (by decide) dbSearch
    ⟨1, str "P1", str "Y Panel", none⟩ ⟨1, str "Ana", some (str "Boss"), none⟩
